import Mathlib

/-!
Verification of the Adobe Lightroom catalog-client service
(backend service class `AdobeLightroomService`).

The definitions below are a shallow embedding of the JavaScript source:
JS strings become `String`, JS numbers appearing as timestamps/ratings become
`Int`, nullable values become `Option`, thrown exceptions become `Except`
errors, and the Node `fs`/`https` side effects become explicit state passing
plus oracle parameters describing the remote endpoint's behaviour.
Timestamps are modelled in milliseconds since the epoch, matching
`Date.now()` / `getTime()` arithmetic in the source.
-/

namespace Photomarket

/-! ## Jav"script" truthiness and fallback helpers

The source relies on JS truthiness (`""`, `0`, `null`, `undefined` are falsy)
and the `||` / `??` operators.  These helpers model exactly those coercions
for the value shapes that occur in the service. -/

/-- Truthiness of a nullable JS string: `null`/`undefined` and `""` are falsy. -/
def jsTruthyOS : Option String → Bool
  | none => false
  | some s => !s.isEmpty

/-- Model of `a || d` for a nullable string with a string default (used for
`asset.caption || asset.filename || placeholder` and similar). -/
def jsOrS (a : Option String) (d : String) : String :=
  match a with
  | some s => if s.isEmpty then d else s
  | none => d

/-- Model of `a || b` where both sides are nullable strings
(used for `response.refresh_token || this.refreshToken`). -/
def jsOrOpt (a b : Option String) : Option String :=
  match a with
  | some s => if s.isEmpty then b else some s
  | none => b

/-- Model of `a || d` for a nullable JS number with a numeric default: `0` is falsy
(used for `options.limit || 100` and `options.defaultPrice || 10`). -/
def jsOrI (a : Option Int) (d : Int) : Int :=
  match a with
  | some n => if n = 0 then d else n
  | none => d

/-! ## Characters and JS string primitives -/

/-- The `{` character, used when scanning for the anti-hijacking guard. -/
def lbrace : Char := Char.ofNat 123

/-- The `}` character. -/
def rbrace : Char := Char.ofNat 125

/-- Whitespace in the sense of the JS regex class `\s` restricted to ASCII
(space, tab, LF, CR, vertical tab, form feed).  The source's inputs are
ASCII, so the wider Unicode `\s` class is not modelled. -/
def isRegexWs (c : Char) : Bool :=
  c = ' ' || c = Char.ofNat 9 || c = Char.ofNat 10 || c = Char.ofNat 13 ||
  c = Char.ofNat 11 || c = Char.ofNat 12

/-- Model of `String.prototype.trim()` (ASCII whitespace). -/
def jsTrim (s : String) : String :=
  String.mk (((s.toList.dropWhile isRegexWs).reverse.dropWhile isRegexWs).reverse)

/-- Model of `String.prototype.toLowerCase()` (ASCII letters; the album names
and guard literal exercised by the service are ASCII). -/
def jsLower (s : String) : String :=
  String.mk (s.toList.map Char.toLower)

/-- Model of `String.prototype.substring(0, n)`. -/
def jsTake (s : String) (n : Nat) : String :=
  String.mk (s.toList.take n)

/-- Whether `needle` occurs as a prefix of `hay` (character-exact). -/
def startsWithChars : List Char → List Char → Bool
  | [], _ => true
  | _ :: _, [] => false
  | a :: as, b :: bs => a = b && startsWithChars as bs

/-- Model of `String.prototype.includes(needle)`. -/
def containsSub (needle : List Char) : List Char → Bool
  | [] => needle.isEmpty
  | h@(_ :: t) => startsWithChars needle h || containsSub needle t

/-- Model of `hay.includes(needle)` on `String`s. -/
def jsIncludes (hay needle : String) : Bool :=
  containsSub needle.toList hay.toList

/-! ## JSON values and `JSON.parse` / `JSON.stringify`

The service calls the platform's `JSON.parse` / `JSON.stringify` builtins,
which are not part of the repository.  `jsonParse` below is a model of
`JSON.parse` on the standard JSON grammar restricted to integer numerals and
to the common string escapes; a body outside this subset counts as a parse
failure.  No claim depends on the excluded corners (fractional exponents,
`\u` escapes). -/

/-- JSON value tree. -/
inductive Json where
  | null : Json
  | bool (b : Bool) : Json
  | num (n : Int) : Json
  | str (s : String) : Json
  | arr (elems : List Json) : Json
  | obj (fields : List (String × Json)) : Json

/-- JSON whitespace (space, tab, LF, CR). -/
def isJsonWs (c : Char) : Bool :=
  c = ' ' || c = Char.ofNat 9 || c = Char.ofNat 10 || c = Char.ofNat 13

/-- Skip JSON whitespace. -/
def skipWs (cs : List Char) : List Char :=
  cs.dropWhile isJsonWs

/-- Decoding of a JSON string escape character. -/
def escChar (c : Char) : Option Char :=
  if c = '"' then some '"'
  else if c = '\\' then some '\\'
  else if c = '/' then some '/'
  else if c = 'n' then some (Char.ofNat 10)
  else if c = 't' then some (Char.ofNat 9)
  else if c = 'r' then some (Char.ofNat 13)
  else if c = 'b' then some (Char.ofNat 8)
  else if c = 'f' then some (Char.ofNat 12)
  else none

/-- Parse the rest of a JSON string literal (opening quote already consumed). -/
def parseJStringAux (acc : List Char) : List Char → Option (String × List Char)
  | [] => none
  | '"' :: r => some (String.mk acc.reverse, r)
  | '\\' :: c :: r =>
    match escChar c with
    | some e => parseJStringAux (e :: acc) r
    | none => none
  | c :: r => parseJStringAux (c :: acc) r

/-- Parse a run of decimal digits (at least one). -/
def parseDigitsAux (acc : Nat) (seen : Bool) : List Char → Option (Nat × List Char)
  | [] => if seen then some (acc, []) else none
  | c :: r =>
    if c.isDigit then parseDigitsAux (acc * 10 + (c.toNat - 48)) true r
    else if seen then some (acc, c :: r) else none

mutual

/-- Parse one JSON value; `fuel` bounds the recursion depth. -/
def parseValue : Nat → List Char → Option (Json × List Char)
  | 0, _ => none
  | fuel + 1, cs =>
    match skipWs cs with
    | [] => none
    | c :: rest =>
      if c = '"' then
        match parseJStringAux [] rest with
        | some (s, r) => some (Json.str s, r)
        | none => none
      else if c = '[' then parseElems fuel rest
      else if c = lbrace then parseFields fuel rest
      else if c = 'n' then
        if startsWithChars ['u', 'l', 'l'] rest then some (Json.null, rest.drop 3) else none
      else if c = 't' then
        if startsWithChars ['r', 'u', 'e'] rest then some (Json.bool true, rest.drop 3) else none
      else if c = 'f' then
        if startsWithChars ['a', 'l', 's', 'e'] rest then some (Json.bool false, rest.drop 4) else none
      else if c = '-' then
        match parseDigitsAux 0 false rest with
        | some (n, r) => some (Json.num (-(n : Int)), r)
        | none => none
      else if c.isDigit then
        match parseDigitsAux 0 false (c :: rest) with
        | some (n, r) => some (Json.num (n : Int), r)
        | none => none
      else none

/-- Parse array elements (the `[` has been consumed). -/
def parseElems : Nat → List Char → Option (Json × List Char)
  | 0, _ => none
  | fuel + 1, cs =>
    match skipWs cs with
    | ']' :: r => some (Json.arr [], r)
    | cs' =>
      match parseValue fuel cs' with
      | some (v, r1) =>
        match parseElemsTail fuel r1 with
        | some (vs, r2) => some (Json.arr (v :: vs), r2)
        | none => none
      | none => none

/-- Parse `, value`* `]` after the first array element. -/
def parseElemsTail : Nat → List Char → Option (List Json × List Char)
  | 0, _ => none
  | fuel + 1, cs =>
    match skipWs cs with
    | ']' :: r => some ([], r)
    | ',' :: r =>
      match parseValue fuel r with
      | some (v, r1) =>
        match parseElemsTail fuel r1 with
        | some (vs, r2) => some (v :: vs, r2)
        | none => none
      | none => none
    | _ => none

/-- Parse object fields (the `{` has been consumed). -/
def parseFields : Nat → List Char → Option (Json × List Char)
  | 0, _ => none
  | fuel + 1, cs =>
    match skipWs cs with
    | c :: r =>
      if c = rbrace then some (Json.obj [], r)
      else if c = '"' then
        match parseJStringAux [] r with
        | some (k, r1) =>
          match skipWs r1 with
          | ':' :: r2 =>
            match parseValue fuel r2 with
            | some (v, r3) =>
              match parseFieldsTail fuel r3 with
              | some (kvs, r4) => some (Json.obj ((k, v) :: kvs), r4)
              | none => none
            | none => none
          | _ => none
        | none => none
      else none
    | [] => none

/-- Parse `, "key": value`* `}` after the first object field. -/
def parseFieldsTail : Nat → List Char → Option (List (String × Json) × List Char)
  | 0, _ => none
  | fuel + 1, cs =>
    match skipWs cs with
    | c :: r =>
      if c = rbrace then some ([], r)
      else if c = ',' then
        match skipWs r with
        | '"' :: r1 =>
          match parseJStringAux [] r1 with
          | some (k, r2) =>
            match skipWs r2 with
            | ':' :: r3 =>
              match parseValue fuel r3 with
              | some (v, r4) =>
                match parseFieldsTail fuel r4 with
                | some (kvs, r5) => some ((k, v) :: kvs, r5)
                | none => none
              | none => none
            | _ => none
          | none => none
        | _ => none
      else none
    | [] => none

end

/-- Model of `JSON.parse`: parse one value and require only trailing
whitespace after it; `none` models a thrown `SyntaxError`. -/
def jsonParse (s : String) : Option Json :=
  match parseValue (s.length + 1) s.toList with
  | some (j, rest) => if (skipWs rest).isEmpty then some j else none
  | none => none

/-- Field lookup on a JSON value, modelling `value.field` (first binding wins,
as `JSON.parse` keeps the last duplicate; duplicates do not occur in the
modelled responses). -/
def jGet (j : Json) (field : String) : Option Json :=
  match j with
  | Json.obj fields => (fields.find? (fun kv => kv.1 = field)).map (fun kv => kv.2)
  | _ => none

/-- JS truthiness of a JSON value (`null`, `false`, `0`, `""` falsy). -/
def jsTruthyJson : Option Json → Bool
  | none => false
  | some Json.null => false
  | some (Json.bool b) => b
  | some (Json.num n) => !(n = 0)
  | some (Json.str s) => !s.isEmpty
  | some (Json.arr _) => true
  | some (Json.obj _) => true

/-- Quote a string as a JSON literal (plain characters; the error bodies the
service stringifies contain no characters needing escapes). -/
def quoteJson (s : String) : String :=
  "\"" ++ s ++ "\""

mutual

/-- Model of `JSON.stringify` (compact form, used only to render the
`errors` field of an upstream error body into the error message). -/
def jsonStringify : Json → String
  | Json.null => "null"
  | Json.bool true => "true"
  | Json.bool false => "false"
  | Json.num n => toString n
  | Json.str s => quoteJson s
  | Json.arr l => "[" ++ jsonStringifyElems l ++ "]"
  | Json.obj l => "\x7b" ++ jsonStringifyFields l ++ "\x7d"

/-- Comma-joined serialization of array elements. -/
def jsonStringifyElems : List Json → String
  | [] => ""
  | [x] => jsonStringify x
  | x :: y :: xs => jsonStringify x ++ "," ++ jsonStringifyElems (y :: xs)

/-- Comma-joined serialization of object fields. -/
def jsonStringifyFields : List (String × Json) → String
  | [] => ""
  | [(k, v)] => quoteJson k ++ ":" ++ jsonStringify v
  | (k, v) :: kv :: xs => quoteJson k ++ ":" ++ jsonStringify v ++ "," ++ jsonStringifyFields (kv :: xs)

end

/-! ## The anti-JSON-hijacking guard prefix

`makeRequest` strips `data.replace(/^\s*while\s*\(\s*1\s*\)\s*\x7b\s*\x7d\s*/i, "").trim()`
before parsing a 2xx (or error) body.  `stripGuard` is a literal transcription
of that anchored, case-insensitive regex followed by `trim()`. -/

/-- Case-insensitive match of a literal, returning the remaining input. -/
def matchCI : List Char → List Char → Option (List Char)
  | [], cs => some cs
  | _ :: _, [] => none
  | p :: ps, c :: cs => if c.toLower = p.toLower then matchCI ps cs else none

/-- Match a single expected character after skipping `\s*`. -/
def matchToken (expected : Char) (cs : List Char) : Option (List Char) :=
  match cs.dropWhile isRegexWs with
  | c :: r => if c = expected then some r else none
  | [] => none

/-- Attempt to match the guard regex
`^\s*while\s*\(\s*1\s*\)\s*\x7b\s*\x7d\s*` (case-insensitive) at the start of
the input, returning what follows the match. -/
def matchGuard (cs : List Char) : Option (List Char) := do
  let r1 ← matchCI ['w', 'h', 'i', 'l', 'e'] (cs.dropWhile isRegexWs)
  let r2 ← matchToken '(' r1
  let r3 ← matchToken '1' r2
  let r4 ← matchToken ')' r3
  let r5 ← matchToken lbrace r4
  let r6 ← matchToken rbrace r5
  pure (r6.dropWhile isRegexWs)

/-- Model of `data.replace(guardRegex, "").trim()`: strip the guard prefix when it
matches (the regex is anchored, so at most the prefix is replaced), then trim. -/
def stripGuard (data : String) : String :=
  match matchGuard data.toList with
  | some rest => jsTrim (String.mk rest)
  | none => jsTrim data

/-- Resolved value of a 2xx response. -/
inductive RespValue where
  | json (j : Json) : RespValue
  | raw (s : String) : RespValue

/-- The 2xx branch of `makeRequest`'s response handler: strip the guard
prefix, parse; on parse failure resolve with the raw text unchanged. -/
def handle2xx (data : String) : RespValue :=
  match jsonParse (stripGuard data) with
  | some j => RespValue.json j
  | none => RespValue.raw data

/-! ## Token Store

In-memory mirror (`this.accessToken` / `this.refreshToken` /
`this.tokenExpiresAt`) plus the durable `adobe-tokens.json` record.
`tokenExpiresAt` is stored in the source as an ISO string or `null`; it is
modelled as `Option Int` (epoch milliseconds), with `none` for `null`.
An ISO string is always truthy, so truthiness of the stored expiry is
`Option.isSome`. -/

/-- The in-memory token mirror. -/
structure Mem where
  accessToken : Option String
  refreshToken : Option String
  tokenExpiresAt : Option Int
deriving DecidableEq

/-- The persisted `adobe-tokens.json` record. -/
structure TokensData where
  accessToken : Option String
  refreshToken : Option String
  tokenExpiresAt : Option Int
  updatedAt : Int
deriving DecidableEq

/-- Service state: the in-memory mirror plus the durable token file
(`none` = the file does not exist). -/
structure Svc where
  mem : Mem
  file : Option TokensData
deriving DecidableEq

/-- The expiry computed by `saveTokens`:
`expiresIn ? new Date(Date.now() + expiresIn * 1000).toISOString() : null`
(note `0` is falsy). -/
def expiryFromExpiresIn (now : Int) (expiresIn : Option Int) : Option Int :=
  match expiresIn with
  | some e => if e = 0 then none else some (now + e * 1000)
  | none => none

/-- Result of `saveTokens`: either the new state, or the state after a
rethrown `writeFileSync` error.  On the error path the in-memory fields were
not yet assigned, so the returned state carries the caller's state unchanged
(the durable file's content after a failed write is outside the model). -/
inductive SaveResult where
  | ok (s : Svc) : SaveResult
  | err (s : Svc) : SaveResult
deriving DecidableEq

/-- The state carried by a `SaveResult`. -/
def SaveResult.state : SaveResult → Svc
  | SaveResult.ok s => s
  | SaveResult.err s => s

/-- Model of `saveTokens(accessToken, refreshToken, expiresIn)`: compute the expiry,
write the record to the token file, then (only after the write succeeded)
assign the three in-memory fields.  `writeFails` models `writeFileSync`
throwing; the error is rethrown (`SaveResult.err`). -/
def saveTokens (now : Int) (accessToken refreshToken : Option String)
    (expiresIn : Option Int) (writeFails : Bool) (s : Svc) : SaveResult :=
  let tokenExpiresAt := expiryFromExpiresIn now expiresIn
  let tokensData : TokensData :=
    { accessToken := accessToken, refreshToken := refreshToken,
      tokenExpiresAt := tokenExpiresAt, updatedAt := now }
  if writeFails then SaveResult.err s
  else
    SaveResult.ok
      { mem := { accessToken := accessToken, refreshToken := refreshToken,
                 tokenExpiresAt := tokenExpiresAt },
        file := some tokensData }

/-- Model of `loadTokens()`: if the token file exists, copy its three fields into the
in-memory mirror; then, if the recorded expiry is truthy and in the past
(`new Date() > new Date(tokenExpiresAt)`), null out the access token.
Absence of the file leaves the state unchanged. -/
def loadTokens (now : Int) (s : Svc) : Svc :=
  match s.file with
  | none => s
  | some d =>
    let mem1 : Mem :=
      { accessToken := d.accessToken, refreshToken := d.refreshToken,
        tokenExpiresAt := d.tokenExpiresAt }
    let expired :=
      match d.tokenExpiresAt with
      | some e => decide (now > e)
      | none => false
    if expired then { s with mem := { mem1 with accessToken := none } }
    else { s with mem := mem1 }

/-- Model of `clearTokens()`: delete the token file if it exists, then null the three
in-memory fields.  The whole body is inside `try/catch`, so nothing ever
propagates; but because the assignments come after `unlinkSync`, a throwing
unlink (modelled by `unlinkFails`, only reachable when the file exists)
skips the in-memory reset. -/
def clearTokens (unlinkFails : Bool) (s : Svc) : Svc :=
  match s.file with
  | some _ => if unlinkFails then s else { mem := { accessToken := none, refreshToken := none, tokenExpiresAt := none }, file := none }
  | none => { mem := { accessToken := none, refreshToken := none, tokenExpiresAt := none }, file := none }

/-- Model of `isConnected()`: `!!(this.accessToken || this.refreshToken)`. -/
def isConnected (s : Svc) : Bool :=
  jsTruthyOS s.mem.accessToken || jsTruthyOS s.mem.refreshToken

/-- The state update performed by `refreshAccessToken`'s success branch:
`saveTokens(response.access_token, response.refresh_token || this.refreshToken,
response.expires_in)`. -/
def refreshSaveTokens (now : Int) (respAccessToken : String)
    (respRefreshToken : Option String) (respExpiresIn : Option Int)
    (writeFails : Bool) (s : Svc) : SaveResult :=
  saveTokens now (some respAccessToken) (jsOrOpt respRefreshToken s.mem.refreshToken)
    respExpiresIn writeFails s

/-! ## Authenticated Request Executor (`makeRequest`) and `getRendition`

The network is an oracle: each refresh attempt consumes the next entry of the
`refreshes` stream (indexed by how many attempts were made so far), and each
dispatched HTTP request consumes the head of the `responses` list.  Time is a
fixed `now` parameter: no claim depends on the clock advancing inside one
call. -/

/-- One upstream answer to a dispatched request. -/
inductive HttpResp where
  | status (code : Nat) (body : String) : HttpResp
  | transportError (msg : String) : HttpResp
deriving DecidableEq

/-- Outcome of one call to `refreshAccessToken`: on success, the token
response's fields (the write of `saveTokens` is assumed to succeed inside a
successful refresh); on failure, the rejection message (provider error,
transport error, or a save failure - all reject the promise). -/
inductive RefreshOutcome where
  | success (accessToken : String) (refreshTokenResp : Option String) (expiresIn : Option Int) : RefreshOutcome
  | failure (msg : String) : RefreshOutcome
deriving DecidableEq

/-- Apply a successful refresh to the service state. -/
def applyRefreshSuccess (now : Int) (a : String) (rr : Option String)
    (eIn : Option Int) (s : Svc) : Svc :=
  (refreshSaveTokens now a rr eIn false s).state

/-- Errors rejected by `makeRequest` / `getRendition`.  The source rejects
plain `Error` objects; the constructors record where the error was built
(carrying the exact message string of the source). -/
inductive ReqError where
  | auth (msg : String) : ReqError
  | refreshFailed (msg : String) : ReqError
  | transport (msg : String) : ReqError
  | api (code : Nat) (msg : String) : ReqError
deriving DecidableEq

/-- Message "No access token available. Please re-authenticate at /auth/adobe". -/
def reauthMsg : String := "No access token available. Please re-authenticate at /auth/adobe"

/-- Message "No access token available. Please authenticate at /auth/adobe". -/
def authenticateMsg : String := "No access token available. Please authenticate at /auth/adobe"

/-- Message "Authentication expired. Please re-authenticate.". -/
def expiredMsg : String := "Authentication expired. Please re-authenticate."

/-- The proactive-refresh horizon: 5 minutes in milliseconds. -/
def proactiveWindowMs : Int := 5 * 60 * 1000

/-- Whether `makeRequest`'s step-1 guard fires: an access token exists, an
expiry is recorded, and `now >= expiresAt || expiresAt - now < 5 min`. -/
def proactiveTriggers (now : Int) (m : Mem) : Bool :=
  match m.accessToken, m.tokenExpiresAt with
  | some a, some e => !a.isEmpty && (decide (now ≥ e) || decide (e - now < proactiveWindowMs))
  | _, _ => false

/-- Step 2 of `makeRequest`'s preflight: the missing-token refresh (whose
failure is caught and rethrown as the re-authenticate Authentication error),
followed by the final `if (!this.accessToken)` check. -/
def makeRequestPreflightStep2 (now : Int) (refreshes : Nat → RefreshOutcome) (i : Nat)
    (s : Svc) : Except ReqError Svc × Nat :=
  if !jsTruthyOS s.mem.accessToken && jsTruthyOS s.mem.refreshToken then
    match refreshes i with
    | RefreshOutcome.success a rr e =>
      if !jsTruthyOS (applyRefreshSuccess now a rr e s).mem.accessToken then
        (Except.error (ReqError.auth authenticateMsg), i + 1)
      else (Except.ok (applyRefreshSuccess now a rr e s), i + 1)
    | RefreshOutcome.failure _ => (Except.error (ReqError.auth reauthMsg), i + 1)
  else if !jsTruthyOS s.mem.accessToken then
    (Except.error (ReqError.auth authenticateMsg), i)
  else (Except.ok s, i)

/-- Steps 1-2 of `makeRequest` (everything before the dispatch): step 1, the
proactive refresh of an expiring token (whose failure, or a missing refresh
token, drops the access token instead of failing), then step 2 above on the
resulting state.  Returns the state to dispatch with (or the thrown error)
together with the next refresh index (= total refresh attempts made so
far). -/
def makeRequestPreflight (now : Int) (refreshes : Nat → RefreshOutcome) (i : Nat)
    (s : Svc) : Except ReqError Svc × Nat :=
  if proactiveTriggers now s.mem then
    if jsTruthyOS s.mem.refreshToken then
      match refreshes i with
      | RefreshOutcome.success a rr e =>
        makeRequestPreflightStep2 now refreshes (i + 1) (applyRefreshSuccess now a rr e s)
      | RefreshOutcome.failure _ =>
        makeRequestPreflightStep2 now refreshes (i + 1)
          { s with mem := { s.mem with accessToken := none } }
    else
      makeRequestPreflightStep2 now refreshes i
        { s with mem := { s.mem with accessToken := none } }
  else makeRequestPreflightStep2 now refreshes i s

/-- The token acquisition performed by `getRendition` before its dispatch:
only the missing-token refresh, with no `try/catch` (a failing refresh
propagates its own rejection) and no proactive near-expiry refresh. -/
def getRenditionPreflight (refreshes : Nat → RefreshOutcome) (i : Nat) (now : Int)
    (s : Svc) : Except ReqError Svc × Nat :=
  if !jsTruthyOS s.mem.accessToken && jsTruthyOS s.mem.refreshToken then
    match refreshes i with
    | RefreshOutcome.success a rr e =>
      if !jsTruthyOS (applyRefreshSuccess now a rr e s).mem.accessToken then
        (Except.error (ReqError.auth reauthMsg), i + 1)
      else (Except.ok (applyRefreshSuccess now a rr e s), i + 1)
    | RefreshOutcome.failure m => (Except.error (ReqError.refreshFailed m), i + 1)
  else if !jsTruthyOS s.mem.accessToken then
    (Except.error (ReqError.auth reauthMsg), i)
  else (Except.ok s, i)

/-- The non-2xx, non-401 error message: strip the guard prefix, parse the
error body, take `description || message || error ||` the generic message,
append the serialized `errors` field when present; on parse failure fall back
to `generic - body.substring(0, 200)`.  A 404 whose endpoint contains
"/catalog" gets an advisory annotation.  (A truthy non-string
`description`/`message`/`error` field is rendered via its JSON serialization
rather than JS string coercion; no modelled response carries one.) -/
def apiErrorMessage (code : Nat) (body : String) (endpoint : String) : String :=
  let base := "API request failed: " ++ toString code
  let m1 :=
    match jsonParse (stripGuard body) with
    | some errorData =>
      let fieldMsg :=
        if jsTruthyJson (jGet errorData "description") then jGet errorData "description"
        else if jsTruthyJson (jGet errorData "message") then jGet errorData "message"
        else if jsTruthyJson (jGet errorData "error") then jGet errorData "error"
        else none
      let msg :=
        match fieldMsg with
        | some (Json.str s) => s
        | some j => jsonStringify j
        | none => base
      if jsTruthyJson (jGet errorData "errors") then
        match jGet errorData "errors" with
        | some errs => msg ++ " - " ++ jsonStringify errs
        | none => msg
      else msg
    | none => base ++ " - " ++ jsTake body 200
  if code = 404 && jsIncludes endpoint "/catalog" then
    m1 ++ "\n\n💡 Common causes:\n" ++
      "  - No cloud catalog exists (are you using Lightroom Classic instead of Lightroom cloud?)\n" ++
      "  - Catalog hasn\x27t been created yet (try logging into lightroom.adobe.com first)\n" ++
      "  - User doesn\x27t have an active Lightroom subscription"
  else m1

/-- Outcome of `makeRequest`: the resolved value or rejected error, plus the
total number of refresh attempts made (the final refresh-stream index; the
caller starts at index 0). -/
structure MkOutcome where
  result : Except ReqError RespValue
  refreshAttempts : Nat

/-- Outcome of one round of `makeRequest`: either a final resolution or a
re-entrant retry (the recursive `this.makeRequest(endpoint, options)` call
after a successful post-401 refresh). -/
inductive StepOut where
  | done (o : MkOutcome) : StepOut
  | retry (i : Nat) (s : Svc) : StepOut

/-- One round of `makeRequest(endpoint, options)`: the preflight (steps 1-2),
then the handling of one upstream response.  A 401 with a refresh token
triggers `refreshAccessToken(...)`: on success the round asks for a full
re-entrant retry (`StepOut.retry`, no retry counter anywhere), on failure the
refresh rejection propagates; a 401 without a refresh token rejects with the
Authentication error; 2xx resolves via the guard-stripping JSON parse;
anything else rejects with the constructed API error. -/
def makeRequestStep (now : Int) (endpoint : String) (refreshes : Nat → RefreshOutcome)
    (i : Nat) (s : Svc) (resp : HttpResp) : StepOut :=
  match makeRequestPreflight now refreshes i s with
  | (Except.error e, i1) => StepOut.done { result := Except.error e, refreshAttempts := i1 }
  | (Except.ok s1, i1) =>
    match resp with
    | HttpResp.transportError m =>
      StepOut.done { result := Except.error (ReqError.transport m), refreshAttempts := i1 }
    | HttpResp.status code body =>
      if code = 401 then
        if jsTruthyOS s1.mem.refreshToken then
          match refreshes i1 with
          | RefreshOutcome.success a rr e =>
            StepOut.retry (i1 + 1) (applyRefreshSuccess now a rr e s1)
          | RefreshOutcome.failure m =>
            StepOut.done
              { result := Except.error (ReqError.refreshFailed m), refreshAttempts := i1 + 1 }
        else
          StepOut.done { result := Except.error (ReqError.auth expiredMsg), refreshAttempts := i1 }
      else if 200 ≤ code && code < 300 then
        StepOut.done { result := Except.ok (handle2xx body), refreshAttempts := i1 }
      else
        StepOut.done
          { result := Except.error (ReqError.api code (apiErrorMessage code body endpoint)),
            refreshAttempts := i1 }

/-- Model of `makeRequest(endpoint, options)`: run rounds against the queued
upstream responses, re-entering after each post-401 refresh exactly as the
source's recursive call does.  An exhausted response queue is modelled as a
transport error (the claims never reach that case; the preflight still runs,
as in the source). -/
def makeRequest (now : Int) (endpoint : String) (refreshes : Nat → RefreshOutcome) :
    Nat → Svc → List HttpResp → MkOutcome
  | i, s, [] =>
    match makeRequestPreflight now refreshes i s with
    | (Except.error e, i1) => { result := Except.error e, refreshAttempts := i1 }
    | (Except.ok _, i1) =>
      { result := Except.error (ReqError.transport "no response"), refreshAttempts := i1 }
  | i, s, resp :: rest =>
    match makeRequestStep now endpoint refreshes i s resp with
    | StepOut.done o => o
    | StepOut.retry i2 s2 => makeRequest now endpoint refreshes i2 s2 rest

/-! ## Catalog Query Engine (`getPhotos`)

`getPhotos` composes `getCatalogs`, `getAlbums` and `getAssets`, each of
which is a `makeRequest` returning parsed upstream JSON or throwing.  The
remote behaviour is an oracle (`PhotosEnv`): each call site's result is an
arbitrary `Except` value, so a transport error, a failed refresh, an upstream
error status, or any malformed response shape are all covered by quantifying
over the environment.  The parsed response shapes are modelled structurally
(`id`, `resources`, `payload.name`, `payload.userRating`, `payload.rating`,
`caption`, `filename`, `created`, `updated` - the only fields the source
reads), with `Option` for absent fields and `Option` around whole responses
for non-object results. -/

/-- Options bag accepted by `getPhotos`. -/
structure PhotoOptions where
  limit : Option Int := none
  offset : Option String := none
  subtype : Option String := none
  albumId : Option String := none
  albumName : Option String := none
  minRating : Option Int := none
  defaultPrice : Option Int := none
deriving DecidableEq

/-- An album entry as read by the name-resolution scan
(`a.id` and `a.payload?.name`). -/
structure AlbumRes where
  id : String
  name : Option String
deriving DecidableEq

/-- An asset entry, with the fields the source reads. -/
structure Asset where
  id : Option String := none
  caption : Option String := none
  filename : Option String := none
  created : Option String := none
  updated : Option String := none
  userRating : Option Int := none
  rating : Option Int := none
deriving DecidableEq

/-- Parsed `/catalog` response: the source only reads `catalogs.id`. -/
structure CatalogsResp where
  id : Option String
deriving DecidableEq

/-- Parsed albums response (`albumsResponse?.resources`). -/
structure AlbumsResp where
  resources : Option (List AlbumRes)
deriving DecidableEq

/-- Parsed assets response (`assets?.resources`). -/
structure AssetsResp where
  resources : Option (List Asset)
deriving DecidableEq

/-- The query `getAssets` sends upstream: `limit` (defaulted via
`options.limit || 100`), plus `offset`/`subtype` only when truthy, and the
album-scoped endpoint when `albumId` is truthy. -/
structure FetchKey where
  limit : Int
  offset : Option String
  subtype : Option String
  albumId : Option String
deriving DecidableEq

/-- The remote API's behaviour for one `getPhotos` run.  `Except.error`
models any thrown failure of the underlying `makeRequest` (transport error,
failed token refresh, upstream error status); `Except.ok none` models a
response that parsed to a non-object. -/
structure PhotosEnv where
  catalogs : Except String (Option CatalogsResp)
  albums : Except String (Option AlbumsResp)
  assets : FetchKey → Except String (Option AssetsResp)

/-- Model of `asset.payload?.userRating ?? asset.payload?.rating ?? 0`
(nullish coalescing: `0` is kept, unlike `||`). -/
def ratingValue (a : Asset) : Int :=
  match a.userRating with
  | some r => r
  | none =>
    match a.rating with
    | some r => r
    | none => 0

/-- Model of `(a.payload?.name || "").trim().toLowerCase() === albumName.trim().toLowerCase()`. -/
def albumNameMatches (requested : String) (a : AlbumRes) : Bool :=
  jsLower (jsTrim (jsOrS a.name "")) = jsLower (jsTrim requested)

/-- The album-name scan: first album whose trimmed, lowercased name equals
the trimmed, lowercased request. -/
def resolveAlbumId (requested : String) (rs : List AlbumRes) : Option String :=
  (rs.find? (albumNameMatches requested)).map (fun a => a.id)

/-- Lines 1195-1209: given the fetched albums response, the effective
`albumId` - the resolved id when the scan finds a match, otherwise the
caller's `albumId` unchanged (a miss is only logged). -/
def effectiveAlbumIdFromAlbums (opts : PhotoOptions) (ar : Option AlbumsResp) : Option String :=
  match ar with
  | none => opts.albumId
  | some a =>
    match a.resources with
    | none => opts.albumId
    | some rs =>
      match resolveAlbumId (jsOrS opts.albumName "") rs with
      | some i => some i
      | none => opts.albumId

/-- The query parameters `getAssets` derives from the (album-resolved)
options. -/
def mkFetchKey (opts : PhotoOptions) (albumId : Option String) : FetchKey :=
  { limit := jsOrI opts.limit 100,
    offset := if jsTruthyOS opts.offset then opts.offset else none,
    subtype := if jsTruthyOS opts.subtype then opts.subtype else none,
    albumId := if jsTruthyOS albumId then albumId else none }

/-- Lines 1217-1231: the in-process `minRating` filter.  Applied only when
`minRating != null` and `assets?.resources?.length` is truthy (a present,
non-empty list); keeps assets whose `ratingValue` is `>=` the threshold. -/
def applyMinRating (minRating : Option Int) (assets : Option AssetsResp) : Option AssetsResp :=
  match minRating with
  | none => assets
  | some m =>
    match assets with
    | none => assets
    | some ar =>
      match ar.resources with
      | none => assets
      | some rs =>
        if rs.length = 0 then assets
        else some { ar with resources := some (rs.filter (fun a => decide (ratingValue a ≥ m))) }

/-- The storefront photo shape produced by `getPhotos` (metadata fields
inlined). -/
structure Photo where
  id : String
  title : String
  url : String
  price : Int
  metaFilename : Option String
  metaCreated : Option String
  metaUpdated : Option String
  metaCatalogId : String
deriving DecidableEq

/-- The transform of one asset at position `idx` (0-based, as in
`Array.prototype.map`): proxy URL for truthy ids, fallback id/title
placeholders numbered from 1, `defaultPrice || 10`. -/
def mkPhoto (opts : PhotoOptions) (catalogId : String) (idx : Nat) (a : Asset) : Photo :=
  let proxyPath :=
    match a.id with
    | some aid =>
      if aid.isEmpty then ""
      else "/api/adobe/rendition/" ++ catalogId ++ "/" ++ aid ++ "?type=2048"
    | none => ""
  { id := jsOrS a.id ("adobe-" ++ toString (idx + 1)),
    title := jsOrS a.caption (jsOrS a.filename ("Photo " ++ toString (idx + 1))),
    url := proxyPath,
    price := jsOrI opts.defaultPrice 10,
    metaFilename := a.filename,
    metaCreated := a.created,
    metaUpdated := a.updated,
    metaCatalogId := catalogId }

/-- Lines 1237-1267: transform the (filtered) assets response into the
storefront photo list; an absent response or absent `resources` yields the
empty list. -/
def assetsToPhotos (opts : PhotoOptions) (catalogId : String)
    (assets : Option AssetsResp) : List Photo :=
  match assets with
  | some ar =>
    match ar.resources with
    | some rs => rs.enum.map (fun p => mkPhoto opts catalogId p.1 p.2)
    | none => []
  | none => []

/-- The body of `getPhotos` up to (and excluding) the outer `try/catch`:
resolve the catalog, optionally resolve `albumName`, fetch assets, filter by
rating, transform.  `Except.error` is whatever would be thrown. -/
def getPhotosBody (opts : PhotoOptions) (env : PhotosEnv) : Except String (List Photo) := do
  let catalogs ← env.catalogs
  match catalogs with
  | none => pure []
  | some cat =>
    if !jsTruthyOS cat.id then pure []
    else
      let catalogId := jsOrS cat.id ""
      let albumId ←
        if !jsTruthyOS opts.albumId && jsTruthyOS opts.albumName then do
          let albumsResponse ← env.albums
          pure (effectiveAlbumIdFromAlbums opts albumsResponse)
        else pure opts.albumId
      let assets ← env.assets (mkFetchKey opts albumId)
      pure (assetsToPhotos opts catalogId (applyMinRating opts.minRating assets))

/-- Model of `getPhotos(options)`: the body wrapped in the outer `try/catch` that
converts every thrown failure into an empty array. -/
def getPhotos (opts : PhotoOptions) (env : PhotosEnv) : List Photo :=
  match getPhotosBody opts env with
  | Except.ok photos => photos
  | Except.error _ => []

/-! ## Concrete states and environments used by witnesses and counterexamples -/

/-- An empty in-memory mirror (the constructor's initial state). -/
def emptyMem : Mem := { accessToken := none, refreshToken := none, tokenExpiresAt := none }

/-- A never-connected service state. -/
def svc0 : Svc := { mem := emptyMem, file := none }

/-- A connected state with both tokens and a persisted record. -/
def svcTok : Svc :=
  { mem := { accessToken := some "AT", refreshToken := some "RT", tokenExpiresAt := none },
    file := some { accessToken := some "AT", refreshToken := some "RT",
                   tokenExpiresAt := none, updatedAt := 0 } }

/-- A state whose access token has no recorded expiry (proactive refresh
cannot fire) and which holds a refresh token. -/
def stFresh : Svc :=
  { mem := { accessToken := some "a0", refreshToken := some "r0", tokenExpiresAt := none },
    file := none }

/-- A state whose recorded expiry is in the past while both tokens are
present. -/
def stExpiring : Svc :=
  { mem := { accessToken := some "a", refreshToken := some "r", tokenExpiresAt := some 0 },
    file := none }

/-- A refresh endpoint that always succeeds with a fresh token and no new
refresh token or expiry. -/
def refreshAlwaysOk : Nat → RefreshOutcome := fun _ => RefreshOutcome.success "a1" none none

/-- A refresh endpoint that always succeeds with a one-hour expiry. -/
def refreshAlwaysOkExp : Nat → RefreshOutcome :=
  fun _ => RefreshOutcome.success "newA" none (some 3600)

/-- Ten assets with ratings [5,5,3,1,0,2,4,5,3,1] (the spec's rating-filter
scenario). -/
def assets10 : List Asset :=
  [{ id := some "a1", userRating := some 5 }, { id := some "a2", userRating := some 5 },
   { id := some "a3", userRating := some 3 }, { id := some "a4", userRating := some 1 },
   { id := some "a5", userRating := some 0 }, { id := some "a6", userRating := some 2 },
   { id := some "a7", userRating := some 4 }, { id := some "a8", userRating := some 5 },
   { id := some "a9", userRating := some 3 }, { id := some "a10", userRating := some 1 }]

/-- An environment with one catalog and the ten rated assets, returned for
every fetch key. -/
def env10 : PhotosEnv :=
  { catalogs := Except.ok (some { id := some "cat1" }),
    albums := Except.ok none,
    assets := fun _ => Except.ok (some { resources := some assets10 }) }

/-- An environment whose catalog fetch fails with a transport error. -/
def envCatFail : PhotosEnv :=
  { catalogs := Except.error "ECONNREFUSED",
    albums := Except.error "ECONNREFUSED",
    assets := fun _ => Except.error "ECONNREFUSED" }

/-- The two albums of the spec's name-resolution scenario. -/
def albumsEF : List AlbumRes :=
  [{ id := "alb-1", name := some "Europe 2025" }, { id := "alb-2", name := some "Family" }]

/-- A state holding only a refresh token. -/
def svcRT : Svc :=
  { mem := { accessToken := none, refreshToken := some "RT", tokenExpiresAt := none },
    file := none }

/-! ## Helper lemmas -/

/-- Bind on an `Except.ok` continues with the value. -/
@[simp] theorem except_bind_ok {ε α β : Type} (a : α) (f : α → Except ε β) :
    (Except.ok a >>= f) = f a := rfl

/-- Bind on an `Except.error` short-circuits. -/
@[simp] theorem except_bind_err {ε α β : Type} (e : ε) (f : α → Except ε β) :
    ((Except.error e : Except ε α) >>= f) = Except.error e := rfl

/-- Map over an `Except.ok`. -/
@[simp] theorem except_map_ok {ε α β : Type} (a : α) (f : α → β) :
    (f <$> (Except.ok a : Except ε α)) = Except.ok (f a) := rfl

/-- Map over an `Except.error`. -/
@[simp] theorem except_map_err {ε α β : Type} (e : ε) (f : α → β) :
    (f <$> (Except.error e : Except ε α)) = Except.error e := rfl

/-- Pure for the `Except` monad is `Except.ok`. -/
@[simp] theorem except_pure_def {ε α : Type} (a : α) :
    (pure a : Except ε α) = Except.ok a := rfl

/-- Unfolding of the state produced by a successful refresh. -/
theorem applyRefreshSuccess_def (now : Int) (a : String) (rr : Option String)
    (eIn : Option Int) (s : Svc) :
    applyRefreshSuccess now a rr eIn s =
      { mem := { accessToken := some a, refreshToken := jsOrOpt rr s.mem.refreshToken,
                 tokenExpiresAt := expiryFromExpiresIn now eIn },
        file := some { accessToken := some a, refreshToken := jsOrOpt rr s.mem.refreshToken,
                       tokenExpiresAt := expiryFromExpiresIn now eIn, updatedAt := now } } := rfl

/-- The preflight of `makeRequest` passes the state through unchanged when a
non-empty access token is held and no expiry is recorded. -/
theorem makeRequestPreflight_passthrough (now : Int) (refreshes : Nat → RefreshOutcome)
    (i : Nat) (s : Svc) (a : String) (ha : s.mem.accessToken = some a)
    (hne : a.isEmpty = false) (hexp : s.mem.tokenExpiresAt = none) :
    makeRequestPreflight now refreshes i s = (Except.ok s, i) := by
  simp [makeRequestPreflight, makeRequestPreflightStep2, proactiveTriggers, ha, hexp,
    jsTruthyOS, hne]

/-- Truthiness of an absent string. -/
theorem jsTruthyOS_none : jsTruthyOS none = false := rfl

/-- Truthiness of a present string. -/
theorem jsTruthyOS_some (t : String) : jsTruthyOS (some t) = !t.isEmpty := rfl

/-- The access token held after a successful refresh is the response's token. -/
theorem applyRefreshSuccess_accessToken (now : Int) (a : String) (rr : Option String)
    (eIn : Option Int) (s : Svc) :
    jsTruthyOS (applyRefreshSuccess now a rr eIn s).mem.accessToken = !a.isEmpty := by
  rw [applyRefreshSuccess_def]
  rfl

/-- A falsy access token keeps the proactive-refresh guard off. -/
theorem proactiveTriggers_of_falsy (now : Int) (m : Mem)
    (h : jsTruthyOS m.accessToken = false) : proactiveTriggers now m = false := by
  unfold proactiveTriggers
  cases hat : m.accessToken with
  | none => cases m.tokenExpiresAt <;> rfl
  | some a =>
    rw [hat, jsTruthyOS_some] at h
    cases m.tokenExpiresAt with
    | none => rfl
    | some e => simp [h]

/-- The proactive-refresh guard fires only on states holding a truthy access
token. -/
theorem proactiveTriggers_access (now : Int) (m : Mem)
    (h : proactiveTriggers now m = true) : jsTruthyOS m.accessToken = true := by
  by_contra hfalse
  rw [Bool.not_eq_true] at hfalse
  rw [proactiveTriggers_of_falsy now m hfalse] at h
  exact absurd h (by simp)

/-- With the proactive guard off, the preflight is exactly step 2. -/
theorem makeRequestPreflight_no_proactive (now : Int) (refreshes : Nat → RefreshOutcome)
    (i : Nat) (s : Svc) (h : proactiveTriggers now s.mem = false) :
    makeRequestPreflight now refreshes i s = makeRequestPreflightStep2 now refreshes i s := by
  simp [makeRequestPreflight, h]

/-- Step 2 of the preflight never decreases the refresh index. -/
theorem makeRequestPreflightStep2_snd_ge (now : Int) (refreshes : Nat → RefreshOutcome)
    (i : Nat) (s : Svc) : i ≤ (makeRequestPreflightStep2 now refreshes i s).2 := by
  unfold makeRequestPreflightStep2
  split
  · rcases refreshes i with ⟨a, rr, e⟩ | m
    · dsimp only
      split <;> simp
    · simp
  · split <;> simp

/-! ## Claims -/

/-- C7: for every 2xx response body, the anti-JSON-hijacking guard prefix is
stripped (case-insensitively, tolerating leading whitespace) before JSON
parsing, so a body of `while (1) \x7b\x7d` followed by a newline and
`\x7b"id":"abc"\x7d` parses to the object with id "abc"; for every body that
is not valid JSON after stripping, `makeRequest` resolves with the raw text
without throwing. -/
theorem c7_guard_prefix_stripping :
    handle2xx "while (1) \x7b\x7d\n\x7b\"id\":\"abc\"\x7d" =
      RespValue.json (Json.obj [("id", Json.str "abc")]) ∧
    handle2xx "  WHILE ( 1 ) \x7b \x7d  \x7b\"id\":\"abc\"\x7d" =
      RespValue.json (Json.obj [("id", Json.str "abc")]) ∧
    (∀ data : String, jsonParse (stripGuard data) = none →
      handle2xx data = RespValue.raw data) := by
  refine ⟨rfl, rfl, ?_⟩
  intro data h
  unfold handle2xx
  rw [h]

/-- C7 witness: a concrete non-JSON body is resolved raw, via the theorem. -/
theorem c7_guard_prefix_stripping_witness :
    handle2xx "this is not json" = RespValue.raw "this is not json" :=
  c7_guard_prefix_stripping.2.2 "this is not json" rfl

/-- C5: saving a token record (`saveTokens`) and then reloading it
(`loadTokens` on a restarted, empty-memory state with the saved file)
reproduces the same access-token and refresh-token values; if the recorded
expiry is in the past at load time, the access token is discarded on load
while the refresh token is kept. -/
theorem c5_token_roundtrip (tSave tLoad : Int) (acc ref : Option String)
    (expiresIn : Option Int) (s : Svc) :
    (loadTokens tLoad
        { mem := emptyMem,
          file := ((saveTokens tSave acc ref expiresIn false s).state).file }).mem.refreshToken
      = ref ∧
    (expiryFromExpiresIn tSave expiresIn = none →
      (loadTokens tLoad
        { mem := emptyMem,
          file := ((saveTokens tSave acc ref expiresIn false s).state).file }).mem.accessToken
      = acc) ∧
    (∀ e : Int, expiryFromExpiresIn tSave expiresIn = some e → tLoad ≤ e →
      (loadTokens tLoad
        { mem := emptyMem,
          file := ((saveTokens tSave acc ref expiresIn false s).state).file }).mem.accessToken
      = acc) ∧
    (∀ e : Int, expiryFromExpiresIn tSave expiresIn = some e → tLoad > e →
      (loadTokens tLoad
        { mem := emptyMem,
          file := ((saveTokens tSave acc ref expiresIn false s).state).file }).mem.accessToken
      = none) := by
  refine ⟨?_, ?_, ?_, ?_⟩
  · simp only [saveTokens, SaveResult.state, loadTokens]
    cases h : expiryFromExpiresIn tSave expiresIn with
    | none => simp [h]
    | some e =>
      simp [h]
      split <;> rfl
  · intro h
    simp only [saveTokens, SaveResult.state, loadTokens]
    simp [h]
  · intro e he hle
    simp only [saveTokens, SaveResult.state, loadTokens]
    simp [he, show ¬(e < tLoad) by omega]
  · intro e he hgt
    simp only [saveTokens, SaveResult.state, loadTokens]
    simp [he, show e < tLoad by omega]

/-- C5 witness: a record saved at t=0 with a 60 s expiry, reloaded at
t=70000 ms (past expiry), keeps the refresh token and drops the access
token. -/
theorem c5_token_roundtrip_witness :
    (loadTokens 70000
        { mem := emptyMem,
          file := ((saveTokens 0 (some "AT") (some "RT") (some 60) false svc0).state).file }).mem.refreshToken
      = some "RT" ∧
    (loadTokens 70000
        { mem := emptyMem,
          file := ((saveTokens 0 (some "AT") (some "RT") (some 60) false svc0).state).file }).mem.accessToken
      = none :=
  ⟨(c5_token_roundtrip 0 70000 (some "AT") (some "RT") (some 60) svc0).1,
   (c5_token_roundtrip 0 70000 (some "AT") (some "RT") (some 60) svc0).2.2.2 60000
     (by decide) (by decide)⟩

/-- C8: for every successful refresh whose provider response does not include
a new refresh token (absent or empty, both falsy), the record saved via
`saveTokens` carries the prior refresh token unchanged; when the response
does include one, the new refresh token is saved instead. -/
theorem c8_refresh_preserves_refresh_token (now : Int) (respAccess : String)
    (respRefresh : Option String) (expiresIn : Option Int) (s s' : Svc)
    (h : refreshSaveTokens now respAccess respRefresh expiresIn false s = SaveResult.ok s') :
    (jsTruthyOS respRefresh = false → s'.mem.refreshToken = s.mem.refreshToken) ∧
    (∀ t : String, respRefresh = some t → t.isEmpty = false → s'.mem.refreshToken = some t) := by
  simp only [refreshSaveTokens, saveTokens, if_neg Bool.false_ne_true, SaveResult.ok.injEq] at h
  constructor
  · intro hfalsy
    cases hrr : respRefresh with
    | none => rw [← h]; simp [jsOrOpt, hrr]
    | some t =>
      rw [hrr] at hfalsy
      simp [jsTruthyOS] at hfalsy
      rw [← h]
      simp [jsOrOpt, hrr, hfalsy]
  · intro t hrr hne
    rw [← h]
    simp [jsOrOpt, hrr, hne]

/-- C8 witness: a refresh response with no refresh token keeps the stored
one; a response with a new one replaces it. -/
theorem c8_refresh_preserves_refresh_token_witness :
    ((refreshSaveTokens 0 "A2" none none false svcTok).state).mem.refreshToken = some "RT" ∧
    ((refreshSaveTokens 0 "A2" (some "RT2") none false svcTok).state).mem.refreshToken = some "RT2" :=
  ⟨by
    have := (c8_refresh_preserves_refresh_token 0 "A2" none none svcTok
      ((refreshSaveTokens 0 "A2" none none false svcTok).state) rfl).1 rfl
    simpa using this,
   by
    have := (c8_refresh_preserves_refresh_token 0 "A2" (some "RT2") none svcTok
      ((refreshSaveTokens 0 "A2" (some "RT2") none false svcTok).state) rfl).2 "RT2" rfl rfl
    simpa using this⟩

/-- C9 counterexample: the claim says `isConnected()` is false after ANY call
to `clearTokens`, but the in-memory reset sits after `fs.unlinkSync` inside
the `try`: when the unlink throws (error swallowed by the `catch`), the
in-memory tokens survive and `isConnected()` stays true. -/
theorem c9_clear_tokens_counterexample :
    isConnected (clearTokens true svcTok) = true := rfl

/-- C9 (amended): `clearTokens` never propagates an error; calling it when no
persisted record and no in-memory tokens exist does not fail; and after any
call in which no token file exists or the file removal does not throw,
`isConnected()` returns false and a repeat call is a no-op (idempotence). -/
theorem c9_clear_tokens_amended (s : Svc) (unlinkFails : Bool)
    (h : s.file = none ∨ unlinkFails = false) :
    isConnected (clearTokens unlinkFails s) = false ∧
    clearTokens unlinkFails (clearTokens unlinkFails s) = clearTokens unlinkFails s := by
  rcases h with h | h
  · cases hf : s.file with
    | none => simp [clearTokens, hf, isConnected, jsTruthyOS]
    | some d => rw [hf] at h; exact absurd h (by simp)
  · subst h
    cases hf : s.file with
    | none => simp [clearTokens, hf, isConnected, jsTruthyOS]
    | some d => simp [clearTokens, hf, isConnected, jsTruthyOS]

/-- C9 witness: disconnecting an already-disconnected state succeeds, leaves
`isConnected()` false, and is idempotent, via the amended theorem. -/
theorem c9_clear_tokens_amended_witness :
    isConnected (clearTokens false svc0) = false ∧
    clearTokens false (clearTokens false svc0) = clearTokens false svc0 :=
  c9_clear_tokens_amended svc0 false (Or.inl rfl)

/-- C10: `saveTokens` is atomic with respect to the in-memory mirror: if the
durable write fails, the whole state (in particular `accessToken`,
`refreshToken`, `tokenExpiresAt`) is left unchanged and the error propagates
(`SaveResult.err`); after a successful write, the mirror equals the record
just persisted. -/
theorem c10_saveTokens_atomic_mirror (now : Int) (acc ref : Option String)
    (expiresIn : Option Int) (s : Svc) :
    saveTokens now acc ref expiresIn true s = SaveResult.err s ∧
    (∀ s' : Svc, saveTokens now acc ref expiresIn false s = SaveResult.ok s' →
      ∃ d : TokensData, s'.file = some d ∧
        s'.mem.accessToken = d.accessToken ∧
        s'.mem.refreshToken = d.refreshToken ∧
        s'.mem.tokenExpiresAt = d.tokenExpiresAt ∧
        d.accessToken = acc ∧ d.refreshToken = ref ∧
        d.tokenExpiresAt = expiryFromExpiresIn now expiresIn) := by
  constructor
  · simp [saveTokens]
  · intro s' h
    simp only [saveTokens, if_neg Bool.false_ne_true, SaveResult.ok.injEq] at h
    refine ⟨{ accessToken := acc, refreshToken := ref,
              tokenExpiresAt := expiryFromExpiresIn now expiresIn, updatedAt := now }, ?_⟩
    rw [← h]
    simp

/-- C10 witness: at a concrete input, the failing write leaves the state
unchanged and reports the error, and the succeeding write makes the mirror
equal the persisted record. -/
theorem c10_saveTokens_atomic_mirror_witness :
    saveTokens 5 (some "A") (some "R") (some 60) true svcTok = SaveResult.err svcTok ∧
    (∃ d : TokensData,
      ((saveTokens 5 (some "A") (some "R") (some 60) false svcTok).state).file = some d ∧
      ((saveTokens 5 (some "A") (some "R") (some 60) false svcTok).state).mem.accessToken = d.accessToken ∧
      ((saveTokens 5 (some "A") (some "R") (some 60) false svcTok).state).mem.refreshToken = d.refreshToken ∧
      ((saveTokens 5 (some "A") (some "R") (some 60) false svcTok).state).mem.tokenExpiresAt = d.tokenExpiresAt ∧
      d.accessToken = some "A" ∧ d.refreshToken = some "R" ∧
      d.tokenExpiresAt = expiryFromExpiresIn 5 (some 60)) :=
  ⟨(c10_saveTokens_atomic_mirror 5 (some "A") (some "R") (some 60) svcTok).1,
   (c10_saveTokens_atomic_mirror 5 (some "A") (some "R") (some 60) svcTok).2
     ((saveTokens 5 (some "A") (some "R") (some 60) false svcTok).state) rfl⟩

/-- C1 counterexample: the claim says a second consecutive 401 after a
successful refresh fails with an Authentication error after exactly one
refresh attempt.  On a mocked upstream answering 401, 401, 200 with a refresh
endpoint that always succeeds, `makeRequest` instead makes two refresh
attempts and resolves successfully. -/
theorem c1_single_retry_counterexample :
    (makeRequest 0 "/catalog" refreshAlwaysOk 0 stFresh
        [HttpResp.status 401 "", HttpResp.status 401 "",
         HttpResp.status 200 "\x7b\x7d"]).refreshAttempts = 2 ∧
    (makeRequest 0 "/catalog" refreshAlwaysOk 0 stFresh
        [HttpResp.status 401 "", HttpResp.status 401 "",
         HttpResp.status 200 "\x7b\x7d"]).result
      = Except.ok (RespValue.json (Json.obj [])) :=
  ⟨rfl, rfl⟩

/-- C1 (amended): on each 401 with a refresh token present, `makeRequest`
refreshes and retries the entire call recursively with no retry bound: after
any number `n` of consecutive 401s whose refreshes succeed, the call still
proceeds, succeeding on the following 2xx with exactly `n` refresh attempts
made.  The operation fails with the Authentication error only when a 401
arrives with no refresh token, and fails with the refresh rejection itself
when the post-401 refresh attempt fails. -/
theorem c1_retry_on_401_amended :
    (∀ (now : Int) (endpoint : String) (facc : Nat → String),
      (∀ k, (facc k).isEmpty = false) →
      ∀ (n i : Nat) (s : Svc) (a body : String),
        s.mem.accessToken = some a → a.isEmpty = false →
        s.mem.tokenExpiresAt = none → jsTruthyOS s.mem.refreshToken = true →
        makeRequest now endpoint (fun k => RefreshOutcome.success (facc k) none none) i s
            (List.replicate n (HttpResp.status 401 "") ++ [HttpResp.status 200 body])
          = { result := Except.ok (handle2xx body), refreshAttempts := i + n }) ∧
    (∀ (now : Int) (endpoint : String) (refreshes : Nat → RefreshOutcome)
        (i : Nat) (s : Svc) (a body : String) (rest : List HttpResp),
      s.mem.accessToken = some a → a.isEmpty = false →
      s.mem.tokenExpiresAt = none → jsTruthyOS s.mem.refreshToken = false →
      makeRequest now endpoint refreshes i s (HttpResp.status 401 body :: rest)
        = { result := Except.error (ReqError.auth expiredMsg), refreshAttempts := i }) ∧
    (∀ (now : Int) (endpoint : String) (refreshes : Nat → RefreshOutcome)
        (i : Nat) (s : Svc) (a body m : String) (rest : List HttpResp),
      s.mem.accessToken = some a → a.isEmpty = false →
      s.mem.tokenExpiresAt = none → jsTruthyOS s.mem.refreshToken = true →
      refreshes i = RefreshOutcome.failure m →
      makeRequest now endpoint refreshes i s (HttpResp.status 401 body :: rest)
        = { result := Except.error (ReqError.refreshFailed m), refreshAttempts := i + 1 }) := by
  refine ⟨?_, ?_, ?_⟩
  · intro now endpoint facc hfacc n
    induction n with
    | zero =>
      intro i s a body ha hne hexp hrt
      rw [List.replicate_zero, List.nil_append, makeRequest]
      simp only [makeRequestStep,
        makeRequestPreflight_passthrough now _ i s a ha hne hexp]
      simp
    | succ n ih =>
      intro i s a body ha hne hexp hrt
      rw [List.replicate_succ, List.cons_append, makeRequest]
      simp only [makeRequestStep,
        makeRequestPreflight_passthrough now _ i s a ha hne hexp, hrt]
      simp only [if_pos rfl, if_true]
      have hstep := ih (i + 1) (applyRefreshSuccess now (facc i) none none s) (facc i) body
        (by rw [applyRefreshSuccess_def]) (hfacc i)
        (by rw [applyRefreshSuccess_def]; rfl)
        (by rw [applyRefreshSuccess_def]; simpa [jsOrOpt] using hrt)
      rw [hstep, show i + 1 + n = i + (n + 1) from by omega]
  · intro now endpoint refreshes i s a body rest ha hne hexp hrt
    rw [makeRequest]
    simp only [makeRequestStep,
      makeRequestPreflight_passthrough now refreshes i s a ha hne hexp, hrt]
    simp
  · intro now endpoint refreshes i s a body m rest ha hne hexp hrt href
    rw [makeRequest]
    simp only [makeRequestStep,
      makeRequestPreflight_passthrough now refreshes i s a ha hne hexp, hrt, href]
    simp

/-- C1 amended witness: three 401s with succeeding refreshes still resolve
(three refresh attempts); a 401 with no refresh token fails with the
Authentication error; a 401 whose refresh fails propagates the refresh
rejection. -/
theorem c1_retry_on_401_amended_witness :
    makeRequest 0 "/x" (fun _ => RefreshOutcome.success "a1" none none) 0 stFresh
        (List.replicate 3 (HttpResp.status 401 "") ++ [HttpResp.status 200 "ok"])
      = { result := Except.ok (handle2xx "ok"), refreshAttempts := 0 + 3 } ∧
    makeRequest 0 "/x" refreshAlwaysOk 0
        { mem := { accessToken := some "a0", refreshToken := none, tokenExpiresAt := none },
          file := none }
        [HttpResp.status 401 "b"]
      = { result := Except.error (ReqError.auth expiredMsg), refreshAttempts := 0 } ∧
    makeRequest 0 "/x" (fun _ => RefreshOutcome.failure "bad refresh") 0 stFresh
        [HttpResp.status 401 "b"]
      = { result := Except.error (ReqError.refreshFailed "bad refresh"), refreshAttempts := 0 + 1 } :=
  ⟨c1_retry_on_401_amended.1 0 "/x" (fun _ => "a1") (fun _ => rfl) 3 0 stFresh "a0" "ok"
      rfl rfl rfl rfl,
   c1_retry_on_401_amended.2.1 0 "/x" refreshAlwaysOk 0 _ "a0" "b" [] rfl rfl rfl rfl,
   c1_retry_on_401_amended.2.2 0 "/x" (fun _ => RefreshOutcome.failure "bad refresh") 0 stFresh
      "a0" "b" "bad refresh" [] rfl rfl rfl rfl rfl⟩

/-- C4 counterexample: on a token state whose recorded expiry is already in
the past (both tokens present) and with a succeeding refresh endpoint,
`makeRequest`'s steps 1-2 proactively refresh (one attempt, fresh token)
while `getRendition`'s token acquisition does nothing (zero attempts, stale
token): the two do not behave identically for every token state. -/
theorem c4_getRendition_preflight_counterexample :
    getRenditionPreflight refreshAlwaysOkExp 0 1000000 stExpiring = (Except.ok stExpiring, 0) ∧
    (makeRequestPreflight 1000000 refreshAlwaysOkExp 0 stExpiring).2 = 1 ∧
    getRenditionPreflight refreshAlwaysOkExp 0 1000000 stExpiring ≠
      makeRequestPreflight 1000000 refreshAlwaysOkExp 0 stExpiring := by
  refine ⟨rfl, rfl, ?_⟩
  intro h
  exact absurd (congrArg Prod.snd h) (by decide)

/-- C4 (amended): `getRendition` implements only `makeRequest`'s step 2
(missing-token refresh) - it never performs the step-1 proactive refresh
within the 5-minute expiry horizon; when that missing-token refresh fails,
`getRendition` propagates the refresh rejection itself where `makeRequest`
rethrows the Authentication error; and the two acquisitions behave
identically exactly when (if and only if) the proactive guard would not fire
and either an access token is held or the missing-token refresh succeeds
with a non-empty token. -/
theorem c4_getRendition_preflight_amended :
    (∀ (refreshes : Nat → RefreshOutcome) (i : Nat) (now : Int) (s : Svc),
      jsTruthyOS s.mem.accessToken = true →
      getRenditionPreflight refreshes i now s = (Except.ok s, i)) ∧
    (∀ (refreshes : Nat → RefreshOutcome) (i : Nat) (now : Int) (s : Svc) (m : String),
      jsTruthyOS s.mem.accessToken = false → jsTruthyOS s.mem.refreshToken = true →
      refreshes i = RefreshOutcome.failure m →
      getRenditionPreflight refreshes i now s
          = (Except.error (ReqError.refreshFailed m), i + 1) ∧
      makeRequestPreflight now refreshes i s
          = (Except.error (ReqError.auth reauthMsg), i + 1)) ∧
    (∀ (refreshes : Nat → RefreshOutcome) (i : Nat) (now : Int) (s : Svc),
      getRenditionPreflight refreshes i now s = makeRequestPreflight now refreshes i s ↔
        (proactiveTriggers now s.mem = false ∧
          (jsTruthyOS s.mem.accessToken = true ∨
            (jsTruthyOS s.mem.refreshToken = true ∧
              ∃ (a : String) (rr : Option String) (e : Option Int),
                refreshes i = RefreshOutcome.success a rr e ∧ a.isEmpty = false)))) := by
  have hrend_acc : ∀ (refreshes : Nat → RefreshOutcome) (i : Nat) (now : Int) (s : Svc),
      jsTruthyOS s.mem.accessToken = true →
      getRenditionPreflight refreshes i now s = (Except.ok s, i) := by
    intro refreshes i now s hacc
    simp [getRenditionPreflight, hacc]
  have hfail : ∀ (refreshes : Nat → RefreshOutcome) (i : Nat) (now : Int) (s : Svc) (m : String),
      jsTruthyOS s.mem.accessToken = false → jsTruthyOS s.mem.refreshToken = true →
      refreshes i = RefreshOutcome.failure m →
      getRenditionPreflight refreshes i now s
          = (Except.error (ReqError.refreshFailed m), i + 1) ∧
      makeRequestPreflight now refreshes i s
          = (Except.error (ReqError.auth reauthMsg), i + 1) := by
    intro refreshes i now s m hacc hrt href
    have hpro := proactiveTriggers_of_falsy now s.mem hacc
    have hcond : (!jsTruthyOS s.mem.accessToken && jsTruthyOS s.mem.refreshToken) = true := by
      rw [hacc, hrt]
      rfl
    constructor
    · simp only [getRenditionPreflight, hcond, href]
      simp
    · rw [makeRequestPreflight_no_proactive now refreshes i s hpro]
      simp only [makeRequestPreflightStep2, hcond, href]
      simp
  refine ⟨hrend_acc, hfail, ?_⟩
  intro refreshes i now s
  constructor
  · -- the two acquisitions agree ONLY on the stated domain
    intro hEq
    by_cases hacc : jsTruthyOS s.mem.accessToken = true
    · refine ⟨?_, Or.inl hacc⟩
      by_contra hproNe
      rw [Bool.not_eq_false] at hproNe
      have hg := hrend_acc refreshes i now s hacc
      by_cases hrt : jsTruthyOS s.mem.refreshToken = true
      · -- the proactive branch consumes a refresh: the indices differ
        have hunfold : makeRequestPreflight now refreshes i s =
            match refreshes i with
            | RefreshOutcome.success a rr e =>
              makeRequestPreflightStep2 now refreshes (i + 1) (applyRefreshSuccess now a rr e s)
            | RefreshOutcome.failure _ =>
              makeRequestPreflightStep2 now refreshes (i + 1)
                { s with mem := { s.mem with accessToken := none } } := by
          simp [makeRequestPreflight, hproNe, hrt]
        have hsnd : i + 1 ≤ (makeRequestPreflight now refreshes i s).2 := by
          rw [hunfold]
          rcases refreshes i with ⟨a, rr, e⟩ | m
          · exact makeRequestPreflightStep2_snd_ge now refreshes (i + 1) _
          · exact makeRequestPreflightStep2_snd_ge now refreshes (i + 1) _
        rw [← hEq, hg] at hsnd
        simp at hsnd
      · -- the proactive branch drops the token and step 2 then throws
        rw [Bool.not_eq_true] at hrt
        have hm : makeRequestPreflight now refreshes i s
            = (Except.error (ReqError.auth authenticateMsg), i) := by
          simp only [makeRequestPreflight, hproNe, hrt]
          simp [makeRequestPreflightStep2, jsTruthyOS_none, hrt]
        rw [hg, hm] at hEq
        simp at hEq
    · rw [Bool.not_eq_true] at hacc
      have hpro := proactiveTriggers_of_falsy now s.mem hacc
      refine ⟨hpro, Or.inr ?_⟩
      have hmk := makeRequestPreflight_no_proactive now refreshes i s hpro
      by_cases hrt : jsTruthyOS s.mem.refreshToken = true
      · rcases href : refreshes i with ⟨a, rr, e⟩ | m
        · by_cases hae : a.isEmpty = false
          · exact ⟨hrt, a, rr, e, rfl, hae⟩
          · exfalso
            rw [Bool.not_eq_false] at hae
            have hcond : (!jsTruthyOS s.mem.accessToken && jsTruthyOS s.mem.refreshToken) = true := by
              rw [hacc, hrt]
              rfl
            have htok : jsTruthyOS (applyRefreshSuccess now a rr e s).mem.accessToken = false := by
              rw [applyRefreshSuccess_accessToken, hae]
              rfl
            have h1 : getRenditionPreflight refreshes i now s
                = (Except.error (ReqError.auth reauthMsg), i + 1) := by
              simp only [getRenditionPreflight, hcond, href, htok]
              simp
            have h2 : makeRequestPreflight now refreshes i s
                = (Except.error (ReqError.auth authenticateMsg), i + 1) := by
              rw [hmk]
              simp only [makeRequestPreflightStep2, hcond, href, htok]
              simp
            rw [h1, h2] at hEq
            simp [reauthMsg, authenticateMsg] at hEq
        · exact absurd ((hfail refreshes i now s m hacc hrt href).1.symm.trans
            (hEq.trans (hfail refreshes i now s m hacc hrt href).2)) (by simp)
      · exfalso
        rw [Bool.not_eq_true] at hrt
        have hcond : (!jsTruthyOS s.mem.accessToken && jsTruthyOS s.mem.refreshToken) = false := by
          rw [hacc, hrt]
          rfl
        have h1 : getRenditionPreflight refreshes i now s
            = (Except.error (ReqError.auth reauthMsg), i) := by
          simp only [getRenditionPreflight, hcond]
          simp [hacc]
        have h2 : makeRequestPreflight now refreshes i s
            = (Except.error (ReqError.auth authenticateMsg), i) := by
          rw [hmk]
          simp only [makeRequestPreflightStep2, hcond]
          simp [hacc]
        rw [h1, h2] at hEq
        simp [reauthMsg, authenticateMsg] at hEq
  · -- the two acquisitions agree ON the stated domain
    rintro ⟨hpro, hcases⟩
    rw [makeRequestPreflight_no_proactive now refreshes i s hpro]
    by_cases hacc : jsTruthyOS s.mem.accessToken = true
    · simp [getRenditionPreflight, makeRequestPreflightStep2, hacc]
    · rcases hcases with hcase | ⟨hrt, a, rr, e, href, hane⟩
      · exact absurd hcase hacc
      · rw [Bool.not_eq_true] at hacc
        have hcond : (!jsTruthyOS s.mem.accessToken && jsTruthyOS s.mem.refreshToken) = true := by
          rw [hacc, hrt]
          rfl
        have htok : jsTruthyOS (applyRefreshSuccess now a rr e s).mem.accessToken = true := by
          rw [applyRefreshSuccess_accessToken, hane]
          rfl
        simp only [getRenditionPreflight, makeRequestPreflightStep2, hcond, href, htok]
        simp

/-- C4 amended witness: a non-expiring access token passes both acquisitions
through untouched; a state holding only a refresh token whose refresh fails
gets the refresh rejection from `getRendition` but the Authentication error
from `makeRequest`; and with a succeeding refresh the same state goes through
the identical missing-token path in both, as the equivalence's if-direction
asserts. -/
theorem c4_getRendition_preflight_amended_witness :
    getRenditionPreflight refreshAlwaysOk 0 0 svcTok = (Except.ok svcTok, 0) ∧
    getRenditionPreflight (fun _ => RefreshOutcome.failure "bad refresh") 0 0 svcRT
      = (Except.error (ReqError.refreshFailed "bad refresh"), 1) ∧
    makeRequestPreflight 0 (fun _ => RefreshOutcome.failure "bad refresh") 0 svcRT
      = (Except.error (ReqError.auth reauthMsg), 1) ∧
    getRenditionPreflight refreshAlwaysOk 0 0 svcRT
      = makeRequestPreflight 0 refreshAlwaysOk 0 svcRT :=
  ⟨c4_getRendition_preflight_amended.1 refreshAlwaysOk 0 0 svcTok rfl,
   (c4_getRendition_preflight_amended.2.1 (fun _ => RefreshOutcome.failure "bad refresh")
     0 0 svcRT "bad refresh" rfl rfl rfl).1,
   (c4_getRendition_preflight_amended.2.1 (fun _ => RefreshOutcome.failure "bad refresh")
     0 0 svcRT "bad refresh" rfl rfl rfl).2,
   (c4_getRendition_preflight_amended.2.2 refreshAlwaysOk 0 0 svcRT).mpr
     ⟨rfl, Or.inr ⟨rfl, "a1", none, none, rfl, rfl⟩⟩⟩

/-- C2: for every options input and every behaviour of the remote API
(catalog-fetch failure, album-fetch failure, asset-fetch failure, refresh
failure, transport error - all of which surface as thrown errors of the
respective calls - and an account with no catalog), `getPhotos` never throws:
it is a total function into photo lists, every thrown internal failure is
converted to the empty array, and the no-catalog case yields the empty
array. -/
theorem c2_getPhotos_never_throws (opts : PhotoOptions) (env : PhotosEnv) :
    (∀ e : String, getPhotosBody opts env = Except.error e → getPhotos opts env = []) ∧
    (∀ e : String, env.catalogs = Except.error e → getPhotos opts env = []) ∧
    (env.catalogs = Except.ok none → getPhotos opts env = []) ∧
    (∀ c : CatalogsResp, env.catalogs = Except.ok (some c) → jsTruthyOS c.id = false →
      getPhotos opts env = []) ∧
    (∀ e : String, jsTruthyOS opts.albumId = false → jsTruthyOS opts.albumName = true →
      env.albums = Except.error e → getPhotos opts env = []) ∧
    ((∀ k : FetchKey, ∃ e : String, env.assets k = Except.error e) →
      getPhotos opts env = []) := by
  refine ⟨?_, ?_, ?_, ?_, ?_, ?_⟩
  · intro e h
    unfold getPhotos
    rw [h]
  · intro e h
    simp [getPhotos, getPhotosBody, h]
  · intro h
    simp [getPhotos, getPhotosBody, h]
  · intro c hc hid
    simp [getPhotos, getPhotosBody, hc, hid]
  · intro e halid halnm hal
    cases hc : env.catalogs with
    | error e2 => simp [getPhotos, getPhotosBody, hc]
    | ok copt =>
      cases copt with
      | none => simp [getPhotos, getPhotosBody, hc]
      | some c =>
        by_cases hid : jsTruthyOS c.id = true
        · simp [getPhotos, getPhotosBody, hc, hid, halid, halnm, hal]
        · rw [Bool.not_eq_true] at hid
          simp [getPhotos, getPhotosBody, hc, hid]
  · intro h
    cases hc : env.catalogs with
    | error e2 => simp [getPhotos, getPhotosBody, hc]
    | ok copt =>
      cases copt with
      | none => simp [getPhotos, getPhotosBody, hc]
      | some c =>
        by_cases hid : jsTruthyOS c.id = true
        · by_cases hbr : (!jsTruthyOS opts.albumId && jsTruthyOS opts.albumName) = true
          · cases hal : env.albums with
            | error e3 => simp [getPhotos, getPhotosBody, hc, hid, hbr, hal]
            | ok ar =>
              obtain ⟨e4, he4⟩ := h (mkFetchKey opts (effectiveAlbumIdFromAlbums opts ar))
              simp [getPhotos, getPhotosBody, hc, hid, hbr, hal, he4]
          · obtain ⟨e4, he4⟩ := h (mkFetchKey opts opts.albumId)
            rw [Bool.not_eq_true] at hbr
            simp [getPhotos, getPhotosBody, hc, hid, hbr, he4]
        · rw [Bool.not_eq_true] at hid
          simp [getPhotos, getPhotosBody, hc, hid]

/-- C2 witness: a transport failure of the catalog fetch yields the empty
array, via the theorem. -/
theorem c2_getPhotos_never_throws_witness :
    getPhotos {} envCatFail = [] :=
  (c2_getPhotos_never_throws {} envCatFail).2.1 "ECONNREFUSED" rfl

/-- C3 counterexample: with 10 fetched assets rated [5,5,3,1,0,2,4,5,3,1] and
`minRating: 4`, the returned list has 4 elements (ratings 5,5,4,5 are all
>= 4), not the 3 the claim states. -/
theorem c3_min_rating_counterexample :
    ((getPhotos { minRating := some 4 } env10).length = 4) ∧
    ((getPhotos { minRating := some 4 } env10).length = 3 → False) := by
  refine ⟨rfl, fun h => ?_⟩
  rw [show (getPhotos { minRating := some 4 } env10).length = 4 from rfl] at h
  exact absurd h (by decide)

/-- C3 (amended): when `minRating` is given, the filter is applied in-process
after the fetch, keeping exactly the assets whose rating (primary field
`payload.userRating`, then fallback `payload.rating`, defaulting to zero) is
>= the threshold; in particular, for 10 fetched assets with ratings
[5,5,3,1,0,2,4,5,3,1] and `minRating` 4, the returned list contains exactly
the 4 assets rated >= 4, regardless of the `limit` (and `offset`) passed to
the fetch step. -/
theorem c3_min_rating_filter_amended :
    (∀ (m : Int) (ar : AssetsResp) (rs : List Asset), ar.resources = some rs → rs ≠ [] →
      applyMinRating (some m) (some ar) =
        some { ar with resources := some (rs.filter (fun a => decide (ratingValue a ≥ m))) }) ∧
    (∀ (r : Int) (a : Asset), a.userRating = some r → ratingValue a = r) ∧
    (∀ (r : Int) (a : Asset), a.userRating = none → a.rating = some r → ratingValue a = r) ∧
    (∀ a : Asset, a.userRating = none → a.rating = none → ratingValue a = 0) ∧
    (∀ (lim : Option Int) (off : Option String),
      (getPhotos { minRating := some 4, limit := lim, offset := off } env10).map
          (fun p => p.id)
        = ["a1", "a2", "a7", "a8"]) := by
  refine ⟨?_, ?_, ?_, ?_, ?_⟩
  · intro m ar rs hres hne
    have hlen : ¬(rs.length = 0) := by simpa [List.length_eq_zero] using hne
    simp [applyMinRating, hres, hlen]
  · intro r a h
    simp [ratingValue, h]
  · intro r a h1 h2
    simp [ratingValue, h1, h2]
  · intro a h1 h2
    simp [ratingValue, h1, h2]
  · intro lim off
    rfl

/-- C3 amended witness: the general filter shape at the concrete
ten-asset response. -/
theorem c3_min_rating_filter_amended_witness :
    applyMinRating (some 4) (some { resources := some assets10 }) =
      some { resources := some (assets10.filter (fun a => decide (ratingValue a ≥ 4))) } ∧
    ratingValue { id := some "a1", userRating := some 5 } = 5 :=
  ⟨c3_min_rating_filter_amended.1 4 { resources := some assets10 } assets10 rfl (by simp [assets10]),
   c3_min_rating_filter_amended.2.1 5 { id := some "a1", userRating := some 5 } rfl⟩

/-- C6: for every album list and every `albumName` given to `getPhotos`
without an `albumId`, the album filter resolves to the id of the first album
whose name matches the requested name case-insensitively after trimming
whitespace on both sides (first match wins, characterized recursively); when
no album matches, the effective album id stays the caller's (falsy) one - so
the fetch carries no album filter - and the query still returns a value
rather than throwing. -/
theorem c6_album_name_resolution :
    (∀ (nm : String) (a : AlbumRes) (rs : List AlbumRes),
      albumNameMatches nm a = true → resolveAlbumId nm (a :: rs) = some a.id) ∧
    (∀ (nm : String) (a : AlbumRes) (rs : List AlbumRes),
      albumNameMatches nm a = false → resolveAlbumId nm (a :: rs) = resolveAlbumId nm rs) ∧
    (∀ nm : String, resolveAlbumId nm [] = none) ∧
    resolveAlbumId " eUrOpE 2025 " albumsEF = some "alb-1" ∧
    resolveAlbumId "Nowhere" albumsEF = none ∧
    (∀ (opts : PhotoOptions) (ar : AlbumsResp) (rs : List AlbumRes),
      ar.resources = some rs →
      resolveAlbumId (jsOrS opts.albumName "") rs = none →
      effectiveAlbumIdFromAlbums opts (some ar) = opts.albumId) ∧
    (∀ (opts : PhotoOptions) (albumId : Option String), jsTruthyOS albumId = false →
      (mkFetchKey opts albumId).albumId = none) ∧
    (∀ (opts : PhotoOptions) (env : PhotosEnv) (c : CatalogsResp)
        (ar : Option AlbumsResp) (aresp : Option AssetsResp),
      env.catalogs = Except.ok (some c) → jsTruthyOS c.id = true →
      jsTruthyOS opts.albumId = false → jsTruthyOS opts.albumName = true →
      env.albums = Except.ok ar →
      (∀ k : FetchKey, env.assets k = Except.ok aresp) →
      ∃ l : List Photo, getPhotosBody opts env = Except.ok l) := by
  refine ⟨?_, ?_, ?_, by rfl, by rfl, ?_, ?_, ?_⟩
  · intro nm a rs h
    simp [resolveAlbumId, List.find?_cons_of_pos _ h]
  · intro nm a rs h
    have hneg : ¬(albumNameMatches nm a = true) := by simp [h]
    simp [resolveAlbumId, List.find?_cons_of_neg _ hneg]
  · intro nm
    rfl
  · intro opts ar rs hres hnone
    simp [effectiveAlbumIdFromAlbums, hres, hnone]
  · intro opts albumId h
    simp [mkFetchKey, h]
  · intro opts env c ar aresp hc hid halid halnm hal hassets
    refine ⟨assetsToPhotos opts (jsOrS c.id "")
      (applyMinRating opts.minRating aresp), ?_⟩
    simp [getPhotosBody, hc, hid, halid, halnm, hal, hassets]

/-- C6 witness: the spec's concrete scenario - albums "Europe 2025" and
"Family"; a mixed-case, whitespace-padded request resolves to the first
album's id (asserted directly in the theorem); a missing name leaves the
caller's absent album id in place; and the query completes with a value when
the fetches succeed. -/
theorem c6_album_name_resolution_witness :
    resolveAlbumId " eUrOpE 2025 " albumsEF = some "alb-1" ∧
    effectiveAlbumIdFromAlbums { albumName := some "Nowhere" }
      (some { resources := some albumsEF }) = none ∧
    (∃ l : List Photo,
      getPhotosBody { albumName := some "Nowhere" }
        { catalogs := Except.ok (some { id := some "cat1" }),
          albums := Except.ok (some { resources := some albumsEF }),
          assets := fun _ => Except.ok (some { resources := some [] }) }
        = Except.ok l) :=
  ⟨c6_album_name_resolution.2.2.2.1,
   c6_album_name_resolution.2.2.2.2.2.1 { albumName := some "Nowhere" }
     { resources := some albumsEF } albumsEF rfl (by rfl),
   c6_album_name_resolution.2.2.2.2.2.2.2 { albumName := some "Nowhere" }
     { catalogs := Except.ok (some { id := some "cat1" }),
       albums := Except.ok (some { resources := some albumsEF }),
       assets := fun _ => Except.ok (some { resources := some [] }) }
     { id := some "cat1" } (some { resources := some albumsEF })
     (some { resources := some [] }) rfl rfl rfl rfl rfl (fun _ => rfl)⟩

end Photomarket
